import Mathlib

/-!
Shallow embedding of `bevy_edge_detection` (src/lib.rs): the edge-detection
post-processing effect's data model, pipeline-key construction, pipeline
specialization, settings extraction and the render-graph node execution.
External collaborator types from the host engine (colors, projections,
GPU handles) are modelled at their interfaces; the stateful render node is
modelled by explicit state passing producing a command log.
-/

/-- A 2-component vector of 32-bit floats (bevy `Vec2`, external interface). -/
structure Vec2 where
  x : Float
  y : Float

/-- A 4-component vector of 32-bit floats (bevy `Vec4`, external interface). -/
structure Vec4 where
  x : Float
  y : Float
  z : Float
  w : Float

/-- Constructor mirroring `Vec4::new`. -/
def Vec4.new (x y z w : Float) : Vec4 := ⟨x, y, z, w⟩

/-- Constructor mirroring `Vec2::splat`. -/
def Vec2.splat (v : Float) : Vec2 := ⟨v, v⟩

/-- A linear-space RGBA color (bevy `LinearRgba`, external interface). -/
structure LinearRgba where
  red : Float
  green : Float
  blue : Float
  alpha : Float

/-- External collaborator (bevy `Color`), modelled at its interface: a color
that is either already linear or sRGB-encoded, with a conversion into
`LinearRgba` (the `ed.edge_color.into()` call site). -/
inductive Color
  | srgba (red green blue alpha : Float)
  | linearRgba (red green blue alpha : Float)

/-- The sRGB electro-optical transfer function used by the engine when
converting an sRGB-encoded channel to linear space. -/
def srgbChannelToLinear (c : Float) : Float :=
  if c ≤ 0.04045 then c / 12.92 else ((c + 0.055) / 1.055) ^ (2.4 : Float)

/-- Conversion of a `Color` into its linear RGBA representation
(the engine's `Into<LinearRgba>` for `Color`, at its interface). -/
def Color.intoLinearRgba : Color → LinearRgba
  | Color.srgba r g b a =>
      ⟨srgbChannelToLinear r, srgbChannelToLinear g, srgbChannelToLinear b, a⟩
  | Color.linearRgba r g b a => ⟨r, g, b, a⟩

/-- Bevy `Color::BLACK` (an sRGB black, external interface). -/
def Color.BLACK : Color := Color.srgba 0.0 0.0 0.0 1.0

/-- The `EdgeDetection` settings component (src/lib.rs lines 351-418). -/
structure EdgeDetection where
  depth_threshold : Float
  normal_threshold : Float
  color_threshold : Float
  depth_thickness : Float
  normal_thickness : Float
  color_thickness : Float
  steep_angle_threshold : Float
  steep_angle_multiplier : Float
  uv_distortion_frequency : Vec2
  uv_distortion_strength : Vec2
  edge_color : Color
  enable_depth : Bool
  enable_normal : Bool
  enable_color : Bool

/-- The `Default` impl for `EdgeDetection` (src/lib.rs lines 420-444). -/
def EdgeDetection.default : EdgeDetection where
  depth_threshold := 1.0
  normal_threshold := 0.8
  color_threshold := 0.1
  depth_thickness := 1.0
  normal_thickness := 1.0
  color_thickness := 1.0
  steep_angle_threshold := 0.00
  steep_angle_multiplier := 0.30
  uv_distortion_frequency := Vec2.splat 1.0
  uv_distortion_strength := Vec2.splat 0.004
  edge_color := Color.BLACK
  enable_depth := true
  enable_normal := true
  enable_color := false

/-- The GPU-side `EdgeDetectionUniform` (src/lib.rs lines 446-462). -/
structure EdgeDetectionUniform where
  depth_threshold : Float
  normal_threshold : Float
  color_threshold : Float
  depth_thickness : Float
  normal_thickness : Float
  color_thickness : Float
  steep_angle_threshold : Float
  steep_angle_multiplier : Float
  uv_distortion : Vec4
  edge_color : LinearRgba

/-- The `From<&EdgeDetection> for EdgeDetectionUniform` impl
(src/lib.rs lines 486-510). -/
def EdgeDetectionUniform.ofEdgeDetection (ed : EdgeDetection) : EdgeDetectionUniform where
  depth_threshold := ed.depth_threshold
  normal_threshold := ed.normal_threshold
  color_threshold := ed.color_threshold
  depth_thickness := ed.depth_thickness
  normal_thickness := ed.normal_thickness
  color_thickness := ed.color_thickness
  steep_angle_threshold := ed.steep_angle_threshold
  steep_angle_multiplier := ed.steep_angle_multiplier
  uv_distortion := Vec4.new
    ed.uv_distortion_frequency.x
    ed.uv_distortion_frequency.y
    ed.uv_distortion_strength.x
    ed.uv_distortion_strength.y
  edge_color := ed.edge_color.intoLinearRgba

/-- C1: the settings-to-uniform conversion copies the eight scalar fields
unchanged, merges the two 2D distortion vectors into one 4-component vector
(frequency in x,y; strength in z,w), converts `edge_color` to linear RGBA,
and is deterministic: identical settings yield identical uniforms. -/
theorem edge_detection_uniform_conversion_spec (ed : EdgeDetection) :
    (EdgeDetectionUniform.ofEdgeDetection ed).depth_threshold = ed.depth_threshold ∧
    (EdgeDetectionUniform.ofEdgeDetection ed).normal_threshold = ed.normal_threshold ∧
    (EdgeDetectionUniform.ofEdgeDetection ed).color_threshold = ed.color_threshold ∧
    (EdgeDetectionUniform.ofEdgeDetection ed).depth_thickness = ed.depth_thickness ∧
    (EdgeDetectionUniform.ofEdgeDetection ed).normal_thickness = ed.normal_thickness ∧
    (EdgeDetectionUniform.ofEdgeDetection ed).color_thickness = ed.color_thickness ∧
    (EdgeDetectionUniform.ofEdgeDetection ed).steep_angle_threshold = ed.steep_angle_threshold ∧
    (EdgeDetectionUniform.ofEdgeDetection ed).steep_angle_multiplier = ed.steep_angle_multiplier ∧
    (EdgeDetectionUniform.ofEdgeDetection ed).uv_distortion =
      ⟨ed.uv_distortion_frequency.x, ed.uv_distortion_frequency.y,
       ed.uv_distortion_strength.x, ed.uv_distortion_strength.y⟩ ∧
    (EdgeDetectionUniform.ofEdgeDetection ed).edge_color = ed.edge_color.intoLinearRgba ∧
    (∀ ed₂ : EdgeDetection, ed = ed₂ →
      EdgeDetectionUniform.ofEdgeDetection ed = EdgeDetectionUniform.ofEdgeDetection ed₂) := by
  refine ⟨rfl, rfl, rfl, rfl, rfl, rfl, rfl, rfl, rfl, rfl, ?_⟩
  intro ed₂ h
  rw [h]

/-- Witness for C1 at the default settings value, discharging the
determinism hypothesis at identical settings. -/
theorem edge_detection_uniform_conversion_spec_witness :
    (EdgeDetection.default = EdgeDetection.default) ∧
    EdgeDetectionUniform.ofEdgeDetection EdgeDetection.default =
      EdgeDetectionUniform.ofEdgeDetection EdgeDetection.default :=
  ⟨rfl, ((edge_detection_uniform_conversion_spec
    EdgeDetection.default).2.2.2.2.2.2.2.2.2.2) EdgeDetection.default rfl⟩

/-- External payload of a perspective projection (bevy
`PerspectiveProjection`), opaque to this crate. -/
structure PerspectiveProjection where
  payload : Nat := 0

/-- External payload of an orthographic projection (bevy
`OrthographicProjection`), opaque to this crate. -/
structure OrthographicProjection where
  payload : Nat := 0

/-- External payload of a custom projection (bevy `Projection::Custom`),
opaque to this crate. -/
structure CustomProjection where
  payload : Nat := 0

/-- The bevy `Projection` component (external interface): a closed enum of
perspective, orthographic and custom projections. -/
inductive Projection
  | Perspective (p : PerspectiveProjection)
  | Orthographic (o : OrthographicProjection)
  | Custom (c : CustomProjection)

/-- The `ProjectionType` enum (src/lib.rs lines 291-296). -/
inductive ProjectionType
  | None
  | Perspective
  | Orthographic
deriving DecidableEq, Repr

/-- The `From<Option<&Projection>> for ProjectionType` impl
(src/lib.rs lines 298-310); the `Projection::Custom` arm executes
`panic!()`, modelled as the error case of `Except`. -/
def ProjectionType.ofOptionProjection : Option Projection → Except String ProjectionType
  | Option.some projection =>
    match projection with
    | Projection.Perspective _ => Except.ok ProjectionType.Perspective
    | Projection.Orthographic _ => Except.ok ProjectionType.Orthographic
    | Projection.Custom _ => Except.error "panicked at src/lib.rs:304"
  | Option.none => Except.ok ProjectionType.None

/-- C2: the projection mapping sends an absent projection to `None`,
perspective to `Perspective`, orthographic to `Orthographic`, and every
other variant (`Custom`) deterministically fails fast with a panic — not a
silent fallback to `None` and not any successful result. -/
theorem projection_type_mapping_spec :
    ProjectionType.ofOptionProjection Option.none = Except.ok ProjectionType.None ∧
    (∀ p : PerspectiveProjection,
      ProjectionType.ofOptionProjection (Option.some (Projection.Perspective p)) =
        Except.ok ProjectionType.Perspective) ∧
    (∀ o : OrthographicProjection,
      ProjectionType.ofOptionProjection (Option.some (Projection.Orthographic o)) =
        Except.ok ProjectionType.Orthographic) ∧
    (∀ c : CustomProjection,
      ProjectionType.ofOptionProjection (Option.some (Projection.Custom c)) =
        Except.error "panicked at src/lib.rs:304") ∧
    (∀ (c : CustomProjection) (r : ProjectionType),
      ProjectionType.ofOptionProjection (Option.some (Projection.Custom c)) ≠ Except.ok r) := by
  refine ⟨rfl, fun _ => rfl, fun _ => rfl, fun _ => rfl, fun c r h => ?_⟩
  simp [ProjectionType.ofOptionProjection] at h

/-- The `EdgeDetectionKey` struct (src/lib.rs lines 312-330). -/
structure EdgeDetectionKey where
  enable_depth : Bool
  enable_normal : Bool
  enable_color : Bool
  hdr : Bool
  multisampled : Bool
  projection : ProjectionType
deriving DecidableEq, Repr

/-- The `EdgeDetectionKey::new` constructor (src/lib.rs lines 332-349);
it inherits the fallibility of the projection conversion it calls. -/
def EdgeDetectionKey.new (edge_detection : EdgeDetection) (hdr multisampled : Bool)
    (projection : Option Projection) : Except String EdgeDetectionKey :=
  (ProjectionType.ofOptionProjection projection).map fun pt =>
    { enable_depth := edge_detection.enable_depth
      enable_normal := edge_detection.enable_normal
      enable_color := edge_detection.enable_color
      hdr := hdr
      multisampled := multisampled
      projection := pt }

/-- C3: key construction is deterministic and injective over the key axes:
whenever two calls succeed, the keys are equal exactly when the three
enable flags, hdr, multisampled and the mapped projection agree. -/
theorem edge_detection_key_new_injective_spec
    (ed₁ ed₂ : EdgeDetection) (h₁ h₂ m₁ m₂ : Bool)
    (p₁ p₂ : Option Projection) (k₁ k₂ : EdgeDetectionKey)
    (hk₁ : EdgeDetectionKey.new ed₁ h₁ m₁ p₁ = Except.ok k₁)
    (hk₂ : EdgeDetectionKey.new ed₂ h₂ m₂ p₂ = Except.ok k₂) :
    k₁ = k₂ ↔
      (ed₁.enable_depth = ed₂.enable_depth ∧
       ed₁.enable_normal = ed₂.enable_normal ∧
       ed₁.enable_color = ed₂.enable_color ∧
       h₁ = h₂ ∧ m₁ = m₂ ∧
       ProjectionType.ofOptionProjection p₁ = ProjectionType.ofOptionProjection p₂) := by
  unfold EdgeDetectionKey.new at hk₁ hk₂
  cases hp₁ : ProjectionType.ofOptionProjection p₁ with
  | error e => rw [hp₁] at hk₁; simp [Except.map] at hk₁
  | ok pt₁ =>
    cases hp₂ : ProjectionType.ofOptionProjection p₂ with
    | error e => rw [hp₂] at hk₂; simp [Except.map] at hk₂
    | ok pt₂ =>
      rw [hp₁] at hk₁
      rw [hp₂] at hk₂
      simp [Except.map] at hk₁ hk₂
      subst hk₁
      subst hk₂
      simp [EdgeDetectionKey.mk.injEq, hp₁, hp₂]

/-- Witness for C3: two successful key constructions at the default
settings with identical axes produce equal keys. -/
theorem edge_detection_key_new_injective_spec_witness :
    (EdgeDetectionKey.new EdgeDetection.default true false Option.none =
      Except.ok ⟨true, true, false, true, false, ProjectionType.None⟩) ∧
    (EdgeDetectionKey.new EdgeDetection.default true false Option.none =
      Except.ok ⟨true, true, false, true, false, ProjectionType.None⟩) ∧
    ((⟨true, true, false, true, false, ProjectionType.None⟩ : EdgeDetectionKey) =
        ⟨true, true, false, true, false, ProjectionType.None⟩ ↔
      (EdgeDetection.default.enable_depth = EdgeDetection.default.enable_depth ∧
       EdgeDetection.default.enable_normal = EdgeDetection.default.enable_normal ∧
       EdgeDetection.default.enable_color = EdgeDetection.default.enable_color ∧
       (true : Bool) = true ∧ (false : Bool) = false ∧
       ProjectionType.ofOptionProjection Option.none =
         ProjectionType.ofOptionProjection Option.none)) :=
  ⟨rfl, rfl,
    edge_detection_key_new_injective_spec EdgeDetection.default EdgeDetection.default
      true true false false Option.none Option.none _ _ rfl rfl⟩

/-- The `Msaa` component (external interface): multisample state of a view. -/
inductive Msaa
  | Off
  | Sample2
  | Sample4
  | Sample8
deriving DecidableEq, BEq, Repr

/-- GPU texture formats relevant to this crate (external interface). -/
inductive TextureFormat
  | Rgba8UnormSrgb
  | Rgba16Float
deriving DecidableEq, Repr

/-- The extended-range HDR view-target format, `ViewTarget::TEXTURE_FORMAT_HDR`
(external constant). -/
def TEXTURE_FORMAT_HDR : TextureFormat := TextureFormat.Rgba16Float

/-- The standard display format, `TextureFormat::bevy_default()`
(external constant). -/
def TextureFormat.bevy_default : TextureFormat := TextureFormat.Rgba8UnormSrgb

/-- Texture sample type in a bind-group-layout entry (external interface). -/
inductive TextureSampleType
  | Float (filterable : Bool)
deriving DecidableEq, Repr

/-- Sampler binding type in a bind-group-layout entry (external interface). -/
inductive SamplerBindingType
  | Filtering
deriving DecidableEq, Repr

/-- The uniform type carried by a uniform-buffer layout entry. -/
inductive UniformKind
  | ViewUniform
  | EdgeDetectionUniformKind
deriving DecidableEq, Repr

/-- One entry of a bind-group layout, mirroring the `binding_types`
constructors used in `EdgeDetectionPipeline::from_world`. -/
inductive BindGroupLayoutEntry
  | texture_2d (sampleType : TextureSampleType)
  | texture_2d_multisampled (sampleType : TextureSampleType)
  | texture_depth_2d
  | texture_depth_2d_multisampled
  | sampler (ty : SamplerBindingType)
  | uniform_buffer (kind : UniformKind) (dynamicOffset : Bool)
deriving DecidableEq, Repr

/-- A bind-group layout: a label and a sequential list of entries
(external interface of `BindGroupLayout`). -/
structure BindGroupLayout where
  label : String
  entries : List BindGroupLayoutEntry
deriving DecidableEq, Repr

/-- An opaque asset handle (external interface of `Handle<Image>`). -/
structure Handle where
  id : Nat
deriving DecidableEq, Repr

/-- An opaque GPU sampler (external interface of `Sampler`). -/
structure Sampler where
  id : Nat
deriving DecidableEq, Repr

/-- The `EdgeDetectionPipeline` resource (src/lib.rs lines 102-109). -/
structure EdgeDetectionPipeline where
  noise_texture : Handle
  linear_sampler : Sampler
  noise_sampler : Sampler
  layout_with_msaa : BindGroupLayout
  layout_without_msaa : BindGroupLayout

/-- `EdgeDetectionPipeline::bind_group_layout` (src/lib.rs lines 111-119). -/
def EdgeDetectionPipeline.bind_group_layout (self : EdgeDetectionPipeline)
    (multisampled : Bool) : BindGroupLayout :=
  if multisampled then self.layout_with_msaa else self.layout_without_msaa

/-- The multisampled bind-group layout built in
`EdgeDetectionPipeline::from_world` (src/lib.rs lines 127-151). -/
def layoutWithMsaa : BindGroupLayout where
  label := "edge_detection: bind_group_layout with msaa"
  entries :=
    [BindGroupLayoutEntry.texture_2d (TextureSampleType.Float true),
     BindGroupLayoutEntry.texture_depth_2d_multisampled,
     BindGroupLayoutEntry.texture_2d_multisampled (TextureSampleType.Float false),
     BindGroupLayoutEntry.sampler SamplerBindingType.Filtering,
     BindGroupLayoutEntry.texture_2d (TextureSampleType.Float true),
     BindGroupLayoutEntry.sampler SamplerBindingType.Filtering,
     BindGroupLayoutEntry.uniform_buffer UniformKind.ViewUniform true,
     BindGroupLayoutEntry.uniform_buffer UniformKind.EdgeDetectionUniformKind true]

/-- The non-multisampled bind-group layout built in
`EdgeDetectionPipeline::from_world` (src/lib.rs lines 153-177). -/
def layoutWithoutMsaa : BindGroupLayout where
  label := "edge_detection: bind_group_layout without msaa"
  entries :=
    [BindGroupLayoutEntry.texture_2d (TextureSampleType.Float true),
     BindGroupLayoutEntry.texture_depth_2d,
     BindGroupLayoutEntry.texture_2d (TextureSampleType.Float true),
     BindGroupLayoutEntry.sampler SamplerBindingType.Filtering,
     BindGroupLayoutEntry.texture_2d (TextureSampleType.Float true),
     BindGroupLayoutEntry.sampler SamplerBindingType.Filtering,
     BindGroupLayoutEntry.uniform_buffer UniformKind.ViewUniform true,
     BindGroupLayoutEntry.uniform_buffer UniformKind.EdgeDetectionUniformKind true]

/-- `FromWorld for EdgeDetectionPipeline` (src/lib.rs lines 121-203), with
the device-created handles and samplers supplied as parameters. -/
def EdgeDetectionPipeline.from_world (noise_texture : Handle)
    (linear_sampler noise_sampler : Sampler) : EdgeDetectionPipeline where
  noise_texture := noise_texture
  linear_sampler := linear_sampler
  noise_sampler := noise_sampler
  layout_with_msaa := layoutWithMsaa
  layout_without_msaa := layoutWithoutMsaa

/-- The edge-detection shader handle (src/lib.rs lines 37-38), with the
opaque id reduced to a small tag. -/
def EDGE_DETECTION_SHADER_HANDLE : Handle := ⟨987654321⟩

/-- Blend state of a color target; the crate always sets `None`, so only
the absent case matters (external interface). -/
inductive BlendState
deriving DecidableEq

/-- Color-write mask (external interface); the crate uses `ColorWrites::ALL`. -/
inductive ColorWrites
  | ALL
deriving DecidableEq, Repr

/-- The `ColorTargetState` of a render-pipeline descriptor
(external interface, restricted to the fields the crate sets). -/
structure ColorTargetState where
  format : TextureFormat
  blend : Option BlendState
  write_mask : ColorWrites

/-- The fragment state of a render-pipeline descriptor (external
interface, restricted to the fields the crate sets). -/
structure FragmentState where
  shader : Handle
  shader_defs : List String
  entry_point : String
  targets : List (Option ColorTargetState)

/-- Vertex state (external interface); the crate always uses the engine's
fullscreen triangle vertex shader. -/
inductive VertexState
  | fullscreen
deriving DecidableEq, Repr

/-- `fullscreen_shader_vertex_state()` (external constant). -/
def fullscreen_shader_vertex_state : VertexState := VertexState.fullscreen

/-- Depth/stencil state; the crate always sets `None`, so only the absent
case matters (external interface). -/
inductive DepthStencilState
deriving DecidableEq

/-- The render-pipeline descriptor (external interface, restricted to the
fields `specialize` sets). -/
structure RenderPipelineDescriptor where
  label : Option String
  layout : List BindGroupLayout
  vertex : VertexState
  fragment : Option FragmentState
  depth_stencil : Option DepthStencilState
  zero_initialize_workgroup_memory : Bool

/-- `SpecializedRenderPipeline::specialize for EdgeDetectionPipeline`
(src/lib.rs lines 205-260). -/
def EdgeDetectionPipeline.specialize (self : EdgeDetectionPipeline)
    (key : EdgeDetectionKey) : RenderPipelineDescriptor :=
  let targets : List (Option ColorTargetState) :=
    [Option.some
      { format := if key.hdr then TEXTURE_FORMAT_HDR else TextureFormat.bevy_default
        blend := Option.none
        write_mask := ColorWrites.ALL }]
  let shader_defs : List String := []
  let shader_defs := if key.enable_depth then shader_defs ++ ["ENABLE_DEPTH"] else shader_defs
  let shader_defs := if key.enable_normal then shader_defs ++ ["ENABLE_NORMAL"] else shader_defs
  let shader_defs := if key.enable_color then shader_defs ++ ["ENABLE_COLOR"] else shader_defs
  let shader_defs := if key.multisampled then shader_defs ++ ["MULTISAMPLED"] else shader_defs
  let shader_defs :=
    match key.projection with
    | ProjectionType.Perspective => shader_defs ++ ["VIEW_PROJECTION_PERSPECTIVE"]
    | ProjectionType.Orthographic => shader_defs ++ ["VIEW_PROJECTION_ORTHOGRAPHIC"]
    | _ => shader_defs
  { label := Option.some "edge_detection: pipeline"
    layout := [self.bind_group_layout key.multisampled]
    vertex := fullscreen_shader_vertex_state
    fragment := Option.some
      { shader := EDGE_DETECTION_SHADER_HANDLE
        shader_defs := shader_defs
        entry_point := "fragment"
        targets := targets }
    depth_stencil := Option.none
    zero_initialize_workgroup_memory := false }

/-- The list of shader defines of a descriptor's fragment state. -/
def RenderPipelineDescriptor.shaderDefs (d : RenderPipelineDescriptor) : List String :=
  match d.fragment with
  | Option.some f => f.shader_defs
  | Option.none => []

/-- The list of color-target formats of a descriptor's fragment state. -/
def RenderPipelineDescriptor.targetFormats (d : RenderPipelineDescriptor) :
    List (Option TextureFormat) :=
  match d.fragment with
  | Option.some f => f.targets.map (Option.map ColorTargetState.format)
  | Option.none => []

/-- C4: for every key, `specialize` emits ENABLE_DEPTH, ENABLE_NORMAL,
ENABLE_COLOR and MULTISAMPLED defines exactly when the corresponding key
flag is set, a projection define exactly for the perspective and
orthographic cases, a single color target whose format is the HDR format
exactly when `key.hdr` and the standard default otherwise, the bind-group
layout selected by `key.multisampled`, and no depth/stencil state. -/
theorem specialize_descriptor_spec (p : EdgeDetectionPipeline) (key : EdgeDetectionKey) :
    ("ENABLE_DEPTH" ∈ (p.specialize key).shaderDefs ↔ key.enable_depth = true) ∧
    ("ENABLE_NORMAL" ∈ (p.specialize key).shaderDefs ↔ key.enable_normal = true) ∧
    ("ENABLE_COLOR" ∈ (p.specialize key).shaderDefs ↔ key.enable_color = true) ∧
    ("MULTISAMPLED" ∈ (p.specialize key).shaderDefs ↔ key.multisampled = true) ∧
    ("VIEW_PROJECTION_PERSPECTIVE" ∈ (p.specialize key).shaderDefs ↔
      key.projection = ProjectionType.Perspective) ∧
    ("VIEW_PROJECTION_ORTHOGRAPHIC" ∈ (p.specialize key).shaderDefs ↔
      key.projection = ProjectionType.Orthographic) ∧
    (p.specialize key).targetFormats =
      [Option.some (if key.hdr then TEXTURE_FORMAT_HDR else TextureFormat.bevy_default)] ∧
    (p.specialize key).layout =
      [if key.multisampled then p.layout_with_msaa else p.layout_without_msaa] ∧
    (p.specialize key).depth_stencil = Option.none := by
  obtain ⟨ed, en, ec, hdr, ms, proj⟩ := key
  cases ed <;> cases en <;> cases ec <;> cases ms <;> cases proj <;>
    simp [EdgeDetectionPipeline.specialize, EdgeDetectionPipeline.bind_group_layout,
      RenderPipelineDescriptor.shaderDefs, RenderPipelineDescriptor.targetFormats]

/-- An opaque render-world entity id (external interface of `RenderEntity`). -/
abbrev Entity := Nat

/-- `EdgeDetectionUniform::extract_edge_detection_settings`
(src/lib.rs lines 464-484). `supported` is the platform constant
`DEPTH_TEXTURE_SAMPLING_SUPPORTED`; `renderEntities` is the set of
render-world entities `commands.get_entity` can resolve; the `expect` on a
missing synced entity is the error case. The result is the list of
`(EdgeDetection, EdgeDetectionUniform)` component insertions. -/
def extract_edge_detection_settings (supported : Bool) (renderEntities : List Entity)
    (query : List (Entity × EdgeDetection)) :
    Except String (List (Entity × EdgeDetection × EdgeDetectionUniform)) :=
  if !supported then
    Except.ok []
  else
    query.mapM fun x =>
      if x.1 ∈ renderEntities then
        Except.ok (x.1, x.2, EdgeDetectionUniform.ofEdgeDetection x.2)
      else
        Except.error "Edge Detection entity wasn't synced."

/-- An opaque GPU texture view (external interface of `TextureView`). -/
structure GpuTextureView where
  id : Nat
deriving DecidableEq, Repr

/-- An opaque uniform-buffer binding (external interface of the buffer
binding returned by `uniforms.binding()`). -/
structure BufferBinding where
  id : Nat
deriving DecidableEq, Repr

/-- An opaque compiled render pipeline (external interface of the value
returned by `PipelineCache::get_render_pipeline`). -/
structure RenderPipeline where
  id : Nat
deriving DecidableEq, Repr

/-- The view's double-buffered color target (external interface of
`ViewTarget`): two textures and a flag saying which is the current main
texture. -/
structure ViewTarget where
  texture_a : GpuTextureView
  texture_b : GpuTextureView
  main_is_a : Bool
deriving DecidableEq, Repr

/-- The current main texture of a view target. -/
def ViewTarget.main_texture (vt : ViewTarget) : GpuTextureView :=
  if vt.main_is_a then vt.texture_a else vt.texture_b

/-- The other (non-main) texture of a view target. -/
def ViewTarget.other_texture (vt : ViewTarget) : GpuTextureView :=
  if vt.main_is_a then vt.texture_b else vt.texture_a

/-- The source/destination pair returned by `post_process_write`
(external interface of `PostProcessWrite`). -/
structure PostProcessWrite where
  source : GpuTextureView
  destination : GpuTextureView
deriving DecidableEq, Repr

/-- `ViewTarget::post_process_write` (external interface): returns the
current main texture as source and the other texture as destination, and
flips the view target's main texture to the destination. -/
def ViewTarget.post_process_write (vt : ViewTarget) : PostProcessWrite × ViewTarget :=
  ({ source := vt.main_texture, destination := vt.other_texture },
   { vt with main_is_a := !vt.main_is_a })

/-- A resource placed in a bind group (external interface of
`BindGroupEntries::sequential` members). -/
inductive BindingResource
  | textureView (v : GpuTextureView)
  | samplerRes (s : Sampler)
  | buffer (b : BufferBinding)
deriving DecidableEq, Repr

/-- A GPU command recorded by the node, modelling the calls made on the
render device and the tracked render pass. -/
inductive RenderCommand
  | createBindGroup (label : String) (layout : BindGroupLayout)
      (entries : List BindingResource)
  | beginRenderPass (label : String) (colorAttachments : List (Option GpuTextureView))
      (depthStencilAttachment : Option GpuTextureView)
  | setRenderPipeline (p : RenderPipeline)
  | setBindGroup (index : Nat) (dynamicOffsets : List Nat)
  | draw (vertexStart vertexEnd instanceStart instanceEnd : Nat)
deriving DecidableEq, Repr

/-- The error type of a render-graph node (external `NodeRunError`); the
node never constructs one. -/
inductive NodeRunError
deriving DecidableEq

/-- The per-view inputs of `EdgeDetectionNode::run`: the query item
(msaa, view target, prepass textures, uniform indices, cached pipeline id
resolution) and the world resources it reads, each fallible resource an
`Option`. -/
structure NodeInputs where
  msaa : Msaa
  viewTarget : ViewTarget
  prepassDepth : Option GpuTextureView
  prepassNormal : Option GpuTextureView
  viewUniformOffset : Nat
  edUniformIndex : Nat
  pipeline : Option RenderPipeline
  noise : Option GpuTextureView
  viewUniformsBinding : Option BufferBinding
  edUniformBinding : Option BufferBinding

/-- `ViewNode::run for EdgeDetectionNode` (src/lib.rs lines 529-640),
modelled by explicit state passing: the result, the view target after the
node ran, and the list of GPU commands issued. Each early `return Ok(())`
yields the unchanged view target and an empty command list. -/
def EdgeDetectionNode.run (edge_detection_pipeline : EdgeDetectionPipeline)
    (inp : NodeInputs) : Except NodeRunError Unit × ViewTarget × List RenderCommand :=
  match inp.pipeline with
  | Option.none => (Except.ok (), inp.viewTarget, [])
  | Option.some pipeline =>
    match inp.prepassDepth, inp.prepassNormal with
    | Option.some depth_texture, Option.some normal_texture =>
      (match inp.noise with
      | Option.none => (Except.ok (), inp.viewTarget, [])
      | Option.some noise_texture =>
        match inp.viewUniformsBinding with
        | Option.none => (Except.ok (), inp.viewTarget, [])
        | Option.some view_uniforms_binding =>
          match inp.edUniformBinding with
          | Option.none => (Except.ok (), inp.viewTarget, [])
          | Option.some ed_uniform_binding =>
            let pp := inp.viewTarget.post_process_write
            let post_process := pp.1
            let multisampled := inp.msaa != Msaa.Off
            (Except.ok (), pp.2,
              [RenderCommand.createBindGroup "edge_detection_bind_group"
                (edge_detection_pipeline.bind_group_layout multisampled)
                [BindingResource.textureView post_process.source,
                 BindingResource.textureView depth_texture,
                 BindingResource.textureView normal_texture,
                 BindingResource.samplerRes edge_detection_pipeline.linear_sampler,
                 BindingResource.textureView noise_texture,
                 BindingResource.samplerRes edge_detection_pipeline.noise_sampler,
                 BindingResource.buffer view_uniforms_binding,
                 BindingResource.buffer ed_uniform_binding],
               RenderCommand.beginRenderPass "edge_detection_pass"
                 [Option.some post_process.destination] Option.none,
               RenderCommand.setRenderPipeline pipeline,
               RenderCommand.setBindGroup 0 [inp.viewUniformOffset, inp.edUniformIndex],
               RenderCommand.draw 0 3 0 1]))
    | _, _ => (Except.ok (), inp.viewTarget, [])

/-- When any fallible resource is unavailable, the node takes an early
`return Ok(())`: unchanged view target, no commands. -/
theorem EdgeDetectionNode.run_skip_of_unavailable (p : EdgeDetectionPipeline)
    (inp : NodeInputs)
    (h : inp.pipeline = Option.none ∨ inp.prepassDepth = Option.none ∨
      inp.prepassNormal = Option.none ∨ inp.noise = Option.none ∨
      inp.viewUniformsBinding = Option.none ∨ inp.edUniformBinding = Option.none) :
    EdgeDetectionNode.run p inp = (Except.ok (), inp.viewTarget, []) := by
  obtain ⟨msaa, vt, pd, pn, vo, ei, pl, no, vb, eb⟩ := inp
  rcases pl with _ | pl <;> rcases pd with _ | pd <;> rcases pn with _ | pn <;>
    rcases no with _ | no <;> rcases vb with _ | vb <;> rcases eb with _ | eb <;>
    simp_all [EdgeDetectionNode.run]

/-- When every fallible resource resolves, the node runs its full draw
sequence: the explicit result of `run` on the resolved inputs. -/
theorem EdgeDetectionNode.run_of_resolved (p : EdgeDetectionPipeline) (inp : NodeInputs)
    (pl : RenderPipeline) (d n ns : GpuTextureView) (vb eb : BufferBinding)
    (h1 : inp.pipeline = Option.some pl) (h2 : inp.prepassDepth = Option.some d)
    (h3 : inp.prepassNormal = Option.some n) (h4 : inp.noise = Option.some ns)
    (h5 : inp.viewUniformsBinding = Option.some vb)
    (h6 : inp.edUniformBinding = Option.some eb) :
    EdgeDetectionNode.run p inp =
      (Except.ok (),
       { inp.viewTarget with main_is_a := !inp.viewTarget.main_is_a },
       [RenderCommand.createBindGroup "edge_detection_bind_group"
          (p.bind_group_layout (inp.msaa != Msaa.Off))
          [BindingResource.textureView inp.viewTarget.main_texture,
           BindingResource.textureView d,
           BindingResource.textureView n,
           BindingResource.samplerRes p.linear_sampler,
           BindingResource.textureView ns,
           BindingResource.samplerRes p.noise_sampler,
           BindingResource.buffer vb,
           BindingResource.buffer eb],
        RenderCommand.beginRenderPass "edge_detection_pass"
          [Option.some inp.viewTarget.other_texture] Option.none,
        RenderCommand.setRenderPipeline pl,
        RenderCommand.setBindGroup 0 [inp.viewUniformOffset, inp.edUniformIndex],
        RenderCommand.draw 0 3 0 1]) := by
  obtain ⟨msaa, vt, pd, pn, vo, ei, plf, no, vbf, ebf⟩ := inp
  simp only at h1 h2 h3 h4 h5 h6
  subst h1 h2 h3 h4 h5 h6
  simp [EdgeDetectionNode.run, ViewTarget.post_process_write]

/-- C5: if the resolved pipeline is not compiled, a prepass texture is
absent, the noise texture is not loaded, or a uniform binding is
unavailable, the node returns success without opening a render pass,
issuing any command, or changing the view target. -/
theorem node_skip_path_spec (p : EdgeDetectionPipeline) (inp : NodeInputs)
    (h : inp.pipeline = Option.none ∨ inp.prepassDepth = Option.none ∨
      inp.prepassNormal = Option.none ∨ inp.noise = Option.none ∨
      inp.viewUniformsBinding = Option.none ∨ inp.edUniformBinding = Option.none) :
    EdgeDetectionNode.run p inp = (Except.ok (), inp.viewTarget, []) :=
  EdgeDetectionNode.run_skip_of_unavailable p inp h

/-- A concrete view target used by the witnesses: texture 0 is current. -/
def sampleViewTarget : ViewTarget := ⟨⟨0⟩, ⟨1⟩, true⟩

/-- A concrete pipeline resource used by the witnesses. -/
def samplePipelineResource : EdgeDetectionPipeline :=
  EdgeDetectionPipeline.from_world ⟨10⟩ ⟨0⟩ ⟨1⟩

/-- Concrete node inputs whose resolved pipeline is not yet compiled. -/
def sampleSkipInputs : NodeInputs where
  msaa := Msaa.Sample4
  viewTarget := sampleViewTarget
  prepassDepth := Option.some ⟨2⟩
  prepassNormal := Option.some ⟨3⟩
  viewUniformOffset := 5
  edUniformIndex := 7
  pipeline := Option.none
  noise := Option.some ⟨4⟩
  viewUniformsBinding := Option.some ⟨20⟩
  edUniformBinding := Option.some ⟨21⟩

/-- Concrete node inputs with every fallible resource resolved. -/
def sampleResolvedInputs : NodeInputs where
  msaa := Msaa.Sample4
  viewTarget := sampleViewTarget
  prepassDepth := Option.some ⟨2⟩
  prepassNormal := Option.some ⟨3⟩
  viewUniformOffset := 5
  edUniformIndex := 7
  pipeline := Option.some ⟨9⟩
  noise := Option.some ⟨4⟩
  viewUniformsBinding := Option.some ⟨20⟩
  edUniformBinding := Option.some ⟨21⟩

/-- Witness for C5: a view whose pipeline has not compiled is skipped. -/
theorem node_skip_path_spec_witness :
    (sampleSkipInputs.pipeline = Option.none ∨
      sampleSkipInputs.prepassDepth = Option.none ∨
      sampleSkipInputs.prepassNormal = Option.none ∨
      sampleSkipInputs.noise = Option.none ∨
      sampleSkipInputs.viewUniformsBinding = Option.none ∨
      sampleSkipInputs.edUniformBinding = Option.none) ∧
    EdgeDetectionNode.run samplePipelineResource sampleSkipInputs =
      (Except.ok (), sampleSkipInputs.viewTarget, []) :=
  ⟨Or.inl rfl, node_skip_path_spec samplePipelineResource sampleSkipInputs (Or.inl rfl)⟩

/-- C7: on the successful path the node builds the bind group from exactly
the 8 resources in layout order (layout selected by the view's
multisampling state), opens a render pass whose only attachment is the
destination texture with no depth/stencil attachment, binds the pipeline
and the bind group with the two dynamic offsets, and issues exactly one
draw of 3 vertices and 1 instance. -/
theorem node_success_draw_spec (p : EdgeDetectionPipeline) (inp : NodeInputs)
    (pl : RenderPipeline) (d n ns : GpuTextureView) (vb eb : BufferBinding)
    (h1 : inp.pipeline = Option.some pl) (h2 : inp.prepassDepth = Option.some d)
    (h3 : inp.prepassNormal = Option.some n) (h4 : inp.noise = Option.some ns)
    (h5 : inp.viewUniformsBinding = Option.some vb)
    (h6 : inp.edUniformBinding = Option.some eb) :
    EdgeDetectionNode.run p inp =
      (Except.ok (),
       { inp.viewTarget with main_is_a := !inp.viewTarget.main_is_a },
       [RenderCommand.createBindGroup "edge_detection_bind_group"
          (p.bind_group_layout (inp.msaa != Msaa.Off))
          [BindingResource.textureView inp.viewTarget.main_texture,
           BindingResource.textureView d,
           BindingResource.textureView n,
           BindingResource.samplerRes p.linear_sampler,
           BindingResource.textureView ns,
           BindingResource.samplerRes p.noise_sampler,
           BindingResource.buffer vb,
           BindingResource.buffer eb],
        RenderCommand.beginRenderPass "edge_detection_pass"
          [Option.some inp.viewTarget.other_texture] Option.none,
        RenderCommand.setRenderPipeline pl,
        RenderCommand.setBindGroup 0 [inp.viewUniformOffset, inp.edUniformIndex],
        RenderCommand.draw 0 3 0 1]) :=
  EdgeDetectionNode.run_of_resolved p inp pl d n ns vb eb h1 h2 h3 h4 h5 h6

/-- Witness for C7 on fully resolved concrete inputs. -/
theorem node_success_draw_spec_witness :
    (sampleResolvedInputs.pipeline = Option.some ⟨9⟩) ∧
    (sampleResolvedInputs.prepassDepth = Option.some ⟨2⟩) ∧
    (sampleResolvedInputs.prepassNormal = Option.some ⟨3⟩) ∧
    (sampleResolvedInputs.noise = Option.some ⟨4⟩) ∧
    (sampleResolvedInputs.viewUniformsBinding = Option.some ⟨20⟩) ∧
    (sampleResolvedInputs.edUniformBinding = Option.some ⟨21⟩) ∧
    EdgeDetectionNode.run samplePipelineResource sampleResolvedInputs =
      (Except.ok (),
       { sampleResolvedInputs.viewTarget with
           main_is_a := !sampleResolvedInputs.viewTarget.main_is_a },
       [RenderCommand.createBindGroup "edge_detection_bind_group"
          (samplePipelineResource.bind_group_layout
            (sampleResolvedInputs.msaa != Msaa.Off))
          [BindingResource.textureView sampleResolvedInputs.viewTarget.main_texture,
           BindingResource.textureView ⟨2⟩,
           BindingResource.textureView ⟨3⟩,
           BindingResource.samplerRes samplePipelineResource.linear_sampler,
           BindingResource.textureView ⟨4⟩,
           BindingResource.samplerRes samplePipelineResource.noise_sampler,
           BindingResource.buffer ⟨20⟩,
           BindingResource.buffer ⟨21⟩],
        RenderCommand.beginRenderPass "edge_detection_pass"
          [Option.some sampleResolvedInputs.viewTarget.other_texture] Option.none,
        RenderCommand.setRenderPipeline ⟨9⟩,
        RenderCommand.setBindGroup 0
          [sampleResolvedInputs.viewUniformOffset, sampleResolvedInputs.edUniformIndex],
        RenderCommand.draw 0 3 0 1]) :=
  ⟨rfl, rfl, rfl, rfl, rfl, rfl,
    node_success_draw_spec samplePipelineResource sampleResolvedInputs
      ⟨9⟩ ⟨2⟩ ⟨3⟩ ⟨4⟩ ⟨20⟩ ⟨21⟩ rfl rfl rfl rfl rfl rfl⟩

/-- C9: on the successful path the node reads only from the ping-pong
source (the pre-flip main texture), writes only to the destination (the
other texture), and the view target's main-texture pointer flips exactly
once to that destination, never remaining on the source. -/
theorem node_ping_pong_spec (p : EdgeDetectionPipeline) (inp : NodeInputs)
    (pl : RenderPipeline) (d n ns : GpuTextureView) (vb eb : BufferBinding)
    (h1 : inp.pipeline = Option.some pl) (h2 : inp.prepassDepth = Option.some d)
    (h3 : inp.prepassNormal = Option.some n) (h4 : inp.noise = Option.some ns)
    (h5 : inp.viewUniformsBinding = Option.some vb)
    (h6 : inp.edUniformBinding = Option.some eb)
    (hne : inp.viewTarget.texture_a ≠ inp.viewTarget.texture_b) :
    (EdgeDetectionNode.run p inp).1 = Except.ok () ∧
    (EdgeDetectionNode.run p inp).2.1.main_texture = inp.viewTarget.other_texture ∧
    (EdgeDetectionNode.run p inp).2.1.main_is_a = !inp.viewTarget.main_is_a ∧
    ((EdgeDetectionNode.run p inp).2.2)[0]? =
      Option.some (RenderCommand.createBindGroup "edge_detection_bind_group"
        (p.bind_group_layout (inp.msaa != Msaa.Off))
        [BindingResource.textureView inp.viewTarget.main_texture,
         BindingResource.textureView d,
         BindingResource.textureView n,
         BindingResource.samplerRes p.linear_sampler,
         BindingResource.textureView ns,
         BindingResource.samplerRes p.noise_sampler,
         BindingResource.buffer vb,
         BindingResource.buffer eb]) ∧
    ((EdgeDetectionNode.run p inp).2.2)[1]? =
      Option.some (RenderCommand.beginRenderPass "edge_detection_pass"
        [Option.some inp.viewTarget.other_texture] Option.none) ∧
    inp.viewTarget.other_texture ≠ inp.viewTarget.main_texture := by
  rw [EdgeDetectionNode.run_of_resolved p inp pl d n ns vb eb h1 h2 h3 h4 h5 h6]
  refine ⟨rfl, ?_, rfl, rfl, rfl, ?_⟩
  · cases hm : inp.viewTarget.main_is_a <;>
      simp [ViewTarget.main_texture, ViewTarget.other_texture, hm]
  · cases hm : inp.viewTarget.main_is_a <;>
      simp [ViewTarget.main_texture, ViewTarget.other_texture, hm] <;>
      simp [ne_comm] at hne ⊢ <;> exact hne

/-- Witness for C9 on fully resolved concrete inputs with distinct
ping-pong textures. -/
theorem node_ping_pong_spec_witness :
    (sampleResolvedInputs.pipeline = Option.some ⟨9⟩) ∧
    (sampleResolvedInputs.viewTarget.texture_a ≠ sampleResolvedInputs.viewTarget.texture_b) ∧
    (EdgeDetectionNode.run samplePipelineResource sampleResolvedInputs).2.1.main_texture =
      sampleResolvedInputs.viewTarget.other_texture :=
  ⟨rfl, by decide,
    (node_ping_pong_spec samplePipelineResource sampleResolvedInputs
      ⟨9⟩ ⟨2⟩ ⟨3⟩ ⟨4⟩ ⟨20⟩ ⟨21⟩ rfl rfl rfl rfl rfl rfl (by decide)).2.1⟩

/-- C6: with all three enable flags false, key construction still succeeds
for every supported projection, the specialized descriptor carries no
channel defines, and the node (which never consults the flags) still
issues its draw whenever its resources resolve — a content no-op, not a
skip. -/
theorem all_flags_false_noop_spec (ed : EdgeDetection)
    (hd : ed.enable_depth = false) (hn : ed.enable_normal = false)
    (hc : ed.enable_color = false) :
    (∀ (hdr ms : Bool) (proj : Option Projection) (pt : ProjectionType),
      ProjectionType.ofOptionProjection proj = Except.ok pt →
      EdgeDetectionKey.new ed hdr ms proj =
        Except.ok ⟨false, false, false, hdr, ms, pt⟩) ∧
    (∀ (p : EdgeDetectionPipeline) (hdr ms : Bool) (proj : Option Projection)
        (k : EdgeDetectionKey),
      EdgeDetectionKey.new ed hdr ms proj = Except.ok k →
      "ENABLE_DEPTH" ∉ (p.specialize k).shaderDefs ∧
      "ENABLE_NORMAL" ∉ (p.specialize k).shaderDefs ∧
      "ENABLE_COLOR" ∉ (p.specialize k).shaderDefs) ∧
    (∀ (p : EdgeDetectionPipeline) (inp : NodeInputs) (pl : RenderPipeline)
        (d n ns : GpuTextureView) (vb eb : BufferBinding),
      inp.pipeline = Option.some pl → inp.prepassDepth = Option.some d →
      inp.prepassNormal = Option.some n → inp.noise = Option.some ns →
      inp.viewUniformsBinding = Option.some vb →
      inp.edUniformBinding = Option.some eb →
      RenderCommand.draw 0 3 0 1 ∈ (EdgeDetectionNode.run p inp).2.2) := by
  refine ⟨?_, ?_, ?_⟩
  · intro hdr ms proj pt hpt
    unfold EdgeDetectionKey.new
    rw [hpt]
    simp [Except.map, hd, hn, hc]
  · intro p hdr ms proj k hk
    unfold EdgeDetectionKey.new at hk
    cases hpt : ProjectionType.ofOptionProjection proj with
    | error e => rw [hpt] at hk; simp [Except.map] at hk
    | ok pt =>
      rw [hpt] at hk
      simp [Except.map] at hk
      subst hk
      cases ms <;> cases pt <;>
        simp [EdgeDetectionPipeline.specialize, RenderPipelineDescriptor.shaderDefs,
          hd, hn, hc]
  · intro p inp pl d n ns vb eb h1 h2 h3 h4 h5 h6
    rw [EdgeDetectionNode.run_of_resolved p inp pl d n ns vb eb h1 h2 h3 h4 h5 h6]
    simp

/-- The default settings with every channel disabled, used by the C6
witness. -/
def allFlagsOffSettings : EdgeDetection :=
  { EdgeDetection.default with
      enable_depth := false
      enable_normal := false
      enable_color := false }

/-- Witness for C6: with all-false flags, key construction succeeds at a
concrete input and the node still records its draw. -/
theorem all_flags_false_noop_spec_witness :
    (allFlagsOffSettings.enable_depth = false) ∧
    (allFlagsOffSettings.enable_normal = false) ∧
    (allFlagsOffSettings.enable_color = false) ∧
    EdgeDetectionKey.new allFlagsOffSettings true false Option.none =
      Except.ok ⟨false, false, false, true, false, ProjectionType.None⟩ :=
  ⟨rfl, rfl, rfl,
    (all_flags_false_noop_spec allFlagsOffSettings rfl rfl rfl).1
      true false Option.none ProjectionType.None rfl⟩

/-- C8: when the platform cannot sample depth textures
(`DEPTH_TEXTURE_SAMPLING_SUPPORTED` false), extraction inserts no
`EdgeDetectionUniform` for any entity in any frame, and a node whose
effect-uniform binding never becomes available always takes the skip path
regardless of every other input. -/
theorem capability_gate_disables_effect_spec :
    (∀ (renderEntities : List Entity) (query : List (Entity × EdgeDetection)),
      extract_edge_detection_settings false renderEntities query = Except.ok []) ∧
    (∀ (p : EdgeDetectionPipeline) (inp : NodeInputs),
      inp.edUniformBinding = Option.none →
      EdgeDetectionNode.run p inp = (Except.ok (), inp.viewTarget, [])) := by
  refine ⟨?_, ?_⟩
  · intro renderEntities query
    simp [extract_edge_detection_settings]
  · intro p inp h
    exact EdgeDetectionNode.run_skip_of_unavailable p inp
      (Or.inr (Or.inr (Or.inr (Or.inr (Or.inr h)))))

/-- Concrete node inputs with every resource resolved except the
effect-uniform binding, used by the C8 witness. -/
def sampleNoUniformInputs : NodeInputs :=
  { sampleResolvedInputs with edUniformBinding := Option.none }

/-- Witness for C8: on an unsupported platform the extraction of one
entity produces nothing, and the node with no effect-uniform binding
skips. -/
theorem capability_gate_disables_effect_spec_witness :
    extract_edge_detection_settings false [0] [(0, EdgeDetection.default)] =
      Except.ok [] ∧
    (sampleNoUniformInputs.edUniformBinding = Option.none) ∧
    EdgeDetectionNode.run samplePipelineResource sampleNoUniformInputs =
      (Except.ok (), sampleNoUniformInputs.viewTarget, []) :=
  ⟨(capability_gate_disables_effect_spec).1 [0] [(0, EdgeDetection.default)],
   rfl,
   (capability_gate_disables_effect_spec).2 samplePipelineResource
     sampleNoUniformInputs rfl⟩

/-- The multisampling flag computed by the prepare step
(src/lib.rs line 279). -/
def prepare_multisampled (msaa : Msaa) : Bool := msaa != Msaa.Off

/-- The multisampling flag computed by the node at draw time
(src/lib.rs line 594). -/
def node_multisampled (msaa : Msaa) : Bool := msaa != Msaa.Off

/-- The per-view key construction performed by
`prepare_edge_detection_pipelines` (src/lib.rs lines 278-287). -/
def prepare_edge_detection_pipelines_key (edge_detection : EdgeDetection)
    (view_hdr : Bool) (msaa : Msaa) (projection : Option Projection) :
    Except String EdgeDetectionKey :=
  EdgeDetectionKey.new edge_detection view_hdr (prepare_multisampled msaa) projection

/-- C10: the prepare step and the node derive the multisampling flag by
the same rule from the same per-view `Msaa` state, so the layout the
resolved pipeline was specialized with is the very layout the node selects
when creating the bind group. -/
theorem msaa_layout_agreement_spec (msaa : Msaa) (p : EdgeDetectionPipeline)
    (ed : EdgeDetection) (hdr : Bool) (proj : Option Projection)
    (k : EdgeDetectionKey) (inp : NodeInputs) (pl : RenderPipeline)
    (d n ns : GpuTextureView) (vb eb : BufferBinding) :
    (prepare_multisampled msaa = node_multisampled msaa) ∧
    (prepare_edge_detection_pipelines_key ed hdr msaa proj = Except.ok k →
      (p.specialize k).layout = [p.bind_group_layout (node_multisampled msaa)]) ∧
    (inp.pipeline = Option.some pl → inp.prepassDepth = Option.some d →
      inp.prepassNormal = Option.some n → inp.noise = Option.some ns →
      inp.viewUniformsBinding = Option.some vb →
      inp.edUniformBinding = Option.some eb →
      ((EdgeDetectionNode.run p inp).2.2)[0]? =
        Option.some (RenderCommand.createBindGroup "edge_detection_bind_group"
          (p.bind_group_layout (node_multisampled inp.msaa))
          [BindingResource.textureView inp.viewTarget.main_texture,
           BindingResource.textureView d,
           BindingResource.textureView n,
           BindingResource.samplerRes p.linear_sampler,
           BindingResource.textureView ns,
           BindingResource.samplerRes p.noise_sampler,
           BindingResource.buffer vb,
           BindingResource.buffer eb])) := by
  refine ⟨rfl, ?_, ?_⟩
  · intro hk
    unfold prepare_edge_detection_pipelines_key EdgeDetectionKey.new at hk
    cases hpt : ProjectionType.ofOptionProjection proj with
    | error e => rw [hpt] at hk; simp [Except.map] at hk
    | ok pt =>
      rw [hpt] at hk
      simp [Except.map] at hk
      subst hk
      simp [EdgeDetectionPipeline.specialize, prepare_multisampled, node_multisampled]
  · intro h1 h2 h3 h4 h5 h6
    rw [EdgeDetectionNode.run_of_resolved p inp pl d n ns vb eb h1 h2 h3 h4 h5 h6]
    simp [node_multisampled]

/-- Witness for C10 at a concrete msaa state and resolved inputs. -/
theorem msaa_layout_agreement_spec_witness :
    (prepare_edge_detection_pipelines_key EdgeDetection.default true Msaa.Sample4
        Option.none =
      Except.ok ⟨true, true, false, true, true, ProjectionType.None⟩) ∧
    (samplePipelineResource.specialize
        ⟨true, true, false, true, true, ProjectionType.None⟩).layout =
      [samplePipelineResource.bind_group_layout (node_multisampled Msaa.Sample4)] :=
  ⟨rfl,
    (msaa_layout_agreement_spec Msaa.Sample4 samplePipelineResource
      EdgeDetection.default true Option.none
      ⟨true, true, false, true, true, ProjectionType.None⟩
      sampleResolvedInputs ⟨9⟩ ⟨2⟩ ⟨3⟩ ⟨4⟩ ⟨20⟩ ⟨21⟩).2.1 rfl⟩

/-- Witness for C2: a concrete custom projection maps to the panic error,
and the concrete perspective case succeeds. -/
theorem projection_type_mapping_spec_witness :
    ProjectionType.ofOptionProjection (Option.some (Projection.Custom ⟨0⟩)) =
      Except.error "panicked at src/lib.rs:304" ∧
    ProjectionType.ofOptionProjection (Option.some (Projection.Perspective ⟨0⟩)) =
      Except.ok ProjectionType.Perspective :=
  ⟨projection_type_mapping_spec.2.2.2.1 ⟨0⟩,
   projection_type_mapping_spec.2.1 ⟨0⟩⟩

/-- Witness for C4 at a concrete key: the depth define is present exactly
because the flag is set. -/
theorem specialize_descriptor_spec_witness :
    ("ENABLE_DEPTH" ∈
        (samplePipelineResource.specialize
          ⟨true, false, true, false, true, ProjectionType.Perspective⟩).shaderDefs ↔
      (true : Bool) = true) :=
  (specialize_descriptor_spec samplePipelineResource
    ⟨true, false, true, false, true, ProjectionType.Perspective⟩).1
